import Mathlib

/-!
Shallow embedding of the zkSync v0.2 REST transaction endpoint core
(`core/bin/zksync_api/src/api_server/rest/v02/transaction.rs`).

Stored database records are embedded as Lean structures; fields that the
Rust code holds as raw JSON and decodes with `serde_json::from_value`
are embedded as `Option` of the decoded shape, `none` standing for a
value that fails to decode.  A Rust `panic!` / `.unwrap()` failure is a
distinct outcome (`Res.panicked`), separate from an error return
(`Res.err`) and from success (`Res.ok`).  Collaborator calls (storage
schemas, the remote core-api client) are fields of a `Collaborators`
record, each a pure function returning `Except` — `Except.error` is a
failed source query, `Except.ok none` is "not found".
-/

namespace ZkSyncTxApi

/-- Transaction lifecycle status (`TxInBlockStatus` in `zksync_api_types`). -/
inductive TxInBlockStatus : Type
  | queued
  | committed
  | finalized
  | rejected
deriving DecidableEq

/-- A transaction identifier (sync-hash).  Byte-level width checks are elided:
the hash is embedded as a bare natural number. -/
abbrev TxHash : Type := Nat

/-- Modelled from the spec: a rollup operation payload decoded from storage
(`ZkSyncOp` in `zksync_types`); only the distinction between the two
priority-op variants (deposit, full exit) and every other variant matters to
this core, since `L1Transaction::from_executed_op` succeeds exactly on the
priority variants. -/
inductive ZkSyncOp : Type
  | deposit (d : Nat)
  | fullExit (d : Nat)
  | other (d : Nat)
deriving DecidableEq

/-- Modelled from the spec: an L2 transaction decoded from storage
(`ZkSyncTx` in `zksync_types`), with the five variants matched by
`tx_data_from_zksync_tx`; each payload is opaque. -/
inductive ZkSyncTx : Type
  | changePubKey (d : Nat)
  | close (d : Nat)
  | forcedExit (d : Nat)
  | transfer (d : Nat)
  | withdraw (d : Nat)
deriving DecidableEq

/-- Modelled from the spec: the self-computed content hash of a transaction
(spec section 3, TransactionIdentifier: derivable independently by hashing
transaction content).  Embedded as a fixed injective encoding; no claim
depends on the concrete hash values. -/
def ZkSyncTx.hash : ZkSyncTx → TxHash
  | .changePubKey d => 5 * d
  | .close d => 5 * d + 1
  | .forcedExit d => 5 * d + 2
  | .transfer d => 5 * d + 3
  | .withdraw d => 5 * d + 4

/-- Modelled from the spec: decoded `EthSignData` (only its signature is used,
via `eth_sign_data.signature.to_string()`). -/
structure EthSignData : Type where
  signature : String
deriving DecidableEq

/-- Modelled from the spec: the API-side L1 transaction payload
(`L1Transaction` in `zksync_api_types`), recording which smart constructor
built it and from what. -/
inductive L1Transaction : Type
  | deposit (opData : Nat) (ethHash : Nat) (id : Nat) (txHash : TxHash)
  | fullExit (opData : Nat) (ethHash : Nat) (id : Nat) (txHash : TxHash)
  | pending (data : Nat) (ethHash : Nat) (serialId : Nat) (txHash : TxHash)
deriving DecidableEq

/-- Modelled from the spec: `L1Transaction::from_executed_op` — succeeds
exactly when the executed operation is one of the priority variants. -/
def L1Transaction.from_executed_op (operation : ZkSyncOp) (eth_hash : Nat)
    (id : Nat) (tx_hash : TxHash) : Option L1Transaction :=
  match operation with
  | .deposit d => some (.deposit d eth_hash id tx_hash)
  | .fullExit d => some (.fullExit d eth_hash id tx_hash)
  | .other _ => none

/-- Modelled from the spec: `L1Transaction::from_pending_op` — total. -/
def L1Transaction.from_pending_op (data : Nat) (eth_hash : Nat)
    (serial_id : Nat) (tx_hash : TxHash) : L1Transaction :=
  .pending data eth_hash serial_id tx_hash

/-- Modelled from the spec: the API-side L2 transaction payload
(`L2Transaction`); the forced-exit and withdraw variants carry the optional
settlement transaction hash attached by the enrichment step. -/
inductive L2Transaction : Type
  | changePubKey (d : Nat)
  | close (d : Nat)
  | forcedExit (d : Nat) (ethTxHash : Option Nat)
  | transfer (d : Nat)
  | withdraw (d : Nat) (ethTxHash : Option Nat)
deriving DecidableEq

/-- `TransactionData` in `zksync_api_types`: origin-tagged payload. -/
inductive TransactionData : Type
  | l1 (t : L1Transaction)
  | l2 (t : L2Transaction)
deriving DecidableEq

/-- `L1Receipt` in `zksync_api_types`. -/
structure L1Receipt : Type where
  status : TxInBlockStatus
  eth_block : Nat
  rollup_block : Option Nat
  id : Nat
deriving DecidableEq

/-- `L2Receipt` in `zksync_api_types`. -/
structure L2Receipt : Type where
  tx_hash : TxHash
  rollup_block : Option Nat
  status : TxInBlockStatus
  fail_reason : Option String
deriving DecidableEq

/-- `Receipt` in `zksync_api_types`. -/
inductive Receipt : Type
  | l1 (r : L1Receipt)
  | l2 (r : L2Receipt)
deriving DecidableEq

/-- `Transaction` in `zksync_api_types`. -/
structure Transaction : Type where
  tx_hash : TxHash
  block_number : Option Nat
  op : TransactionData
  status : TxInBlockStatus
  fail_reason : Option String
  created_at : Option Nat
deriving DecidableEq

/-- `TxData` in `zksync_api_types`. -/
structure TxData : Type where
  tx : Transaction
  eth_signature : Option String
deriving DecidableEq

/-- Database row `StoredExecutedPriorityOperation`.  `operation` is the
decode result of the stored JSON payload (`none` = undecodable); the numeric
columns are `i64` in the schema, hence `Int`. -/
structure StoredExecutedPriorityOperation : Type where
  block_number : Int
  operation : Option ZkSyncOp
  eth_hash : Nat
  eth_block : Int
  priority_op_serialid : Int
  created_at : Nat
  tx_hash : TxHash
deriving DecidableEq

/-- Database row `StoredExecutedTransaction`.  `tx` and the inner layer of
`eth_sign_data` are decode results of stored JSON (`none` = undecodable);
the outer `Option` on `eth_sign_data` is column nullability. -/
structure StoredExecutedTransaction : Type where
  block_number : Int
  tx_hash : TxHash
  tx : Option ZkSyncTx
  success : Bool
  fail_reason : Option String
  created_at : Nat
  eth_sign_data : Option (Option EthSignData)
deriving DecidableEq

/-- Database row `TxReceiptResponse` (`operations_ext::records`).  The
hex-string round trip of `tx_hash` is elided. -/
structure TxReceiptResponse : Type where
  tx_hash : TxHash
  block_number : Int
  success : Bool
  verified : Bool
  fail_reason : Option String
deriving DecidableEq

/-- A mempool row as returned by `mempool_schema().get_mempool_tx`. -/
structure MempoolTx : Type where
  tx : Option ZkSyncTx
  created_at : Nat
  eth_sign_data : Option (Option EthSignData)
deriving DecidableEq

/-- An unconfirmed priority operation returned by the remote core service. -/
structure PriorityOp : Type where
  serial_id : Nat
  data : Nat
  eth_hash : Nat
  eth_block : Nat
deriving DecidableEq

/-- `PriorityOpLookupQuery` in `zksync_types`. -/
inductive PriorityOpLookupQuery : Type
  | bySyncHash (h : TxHash)
  | byEthHash (h : Nat)
deriving DecidableEq

/-- The REST error kinds used on this surface: `Error::storage` and
`Error::core_api`, each wrapping the collaborator message. -/
inductive ApiError : Type
  | storage (e : String)
  | coreApi (e : String)
deriving DecidableEq

/-- Outcome of a computation that may return a value, return an error, or
panic (a Rust `.unwrap()` / `panic!`). -/
inductive Res (ε α : Type) : Type
  | ok (a : α)
  | err (e : ε)
  | panicked (msg : String)
deriving DecidableEq

/-- Whether a `Res` is an error return (not a success and not a panic). -/
def Res.isErr {ε α : Type} : Res ε α → Bool
  | .ok _ => false
  | .err _ => true
  | .panicked _ => false

/-- The `i64 as u32` cast used on `block_number` columns. -/
def u32_of_i64 (n : Int) : Nat := (n % (2 ^ 32 : Int)).toNat

/-- The `i64 as u64` cast used on `eth_block` and `priority_op_serialid`. -/
def u64_of_i64 (n : Int) : Nat := (n % (2 ^ 64 : Int)).toNat

/-- The collaborator interfaces this core calls, one field per query.
`Except.error` models a failed source query, `Except.ok none` "not found". -/
structure Collaborators : Type where
  access_storage : Except String Unit
  get_executed_priority_operation_by_tx_hash :
    TxHash → Except String (Option StoredExecutedPriorityOperation)
  get_executed_priority_operation_by_eth_hash :
    TxHash → Except String (Option StoredExecutedPriorityOperation)
  is_block_finalized : Nat → Except String Bool
  get_unconfirmed_op :
    PriorityOpLookupQuery → Except String (Option (Nat × PriorityOp))
  tx_receipt : TxHash → Except String (Option TxReceiptResponse)
  contains_tx : TxHash → Except String Bool
  get_mempool_tx : TxHash → Except String (Option MempoolTx)
  get_executed_operation : TxHash → Except String (Option StoredExecutedTransaction)
  eth_tx_for_withdrawal : TxHash → Except String (Option Nat)

/-- `l1_receipt_from_op` (transaction.rs lines 34-52). -/
def l1_receipt_from_op (op : StoredExecutedPriorityOperation)
    (is_block_finalized : Bool) : L1Receipt :=
  let eth_block := u64_of_i64 op.eth_block
  let rollup_block := some (u32_of_i64 op.block_number)
  let id := u64_of_i64 op.priority_op_serialid
  let status :=
    if is_block_finalized then TxInBlockStatus.finalized
    else TxInBlockStatus.committed
  { status := status, eth_block := eth_block, rollup_block := rollup_block,
    id := id }

/-- `l2_receipt_from_response` (transaction.rs lines 54-74). -/
def l2_receipt_from_response (receipt : TxReceiptResponse) : L2Receipt :=
  let tx_hash := receipt.tx_hash
  let rollup_block := some (u32_of_i64 receipt.block_number)
  let fail_reason := receipt.fail_reason
  let status :=
    if receipt.success then
      if receipt.verified then TxInBlockStatus.finalized
      else TxInBlockStatus.committed
    else TxInBlockStatus.rejected
  { tx_hash := tx_hash, rollup_block := rollup_block, status := status,
    fail_reason := fail_reason }

/-- `l1_tx_data_from_op` (transaction.rs lines 76-102).  The two `.unwrap()`
calls (operation decode, `from_executed_op`) surface as `Res.panicked`. -/
def l1_tx_data_from_op (op : StoredExecutedPriorityOperation)
    (is_block_finalized : Bool) : Res ApiError TxData :=
  let block_number := some (u32_of_i64 op.block_number)
  match op.operation with
  | none => .panicked "failed to decode stored operation"
  | some operation =>
    let eth_hash := op.eth_hash
    let id := u64_of_i64 op.priority_op_serialid
    let tx_hash := op.tx_hash
    let status :=
      if is_block_finalized then TxInBlockStatus.finalized
      else TxInBlockStatus.committed
    match L1Transaction.from_executed_op operation eth_hash id tx_hash with
    | none => .panicked "from executed op failed"
    | some l1tx =>
      .ok { tx := { tx_hash := tx_hash, block_number := block_number,
                    op := TransactionData.l1 l1tx, status := status,
                    fail_reason := none, created_at := some op.created_at },
            eth_signature := none }

/-- `get_sign_bytes` (transaction.rs lines 131-139): panics when the stored
`eth_sign_data` JSON does not decode. -/
def get_sign_bytes (eth_sign_data : Option EthSignData) : Res String String :=
  match eth_sign_data with
  | none => .panicked "database provided an incorrect eth sign data field"
  | some d => .ok d.signature

/-- The `op.eth_sign_data.map(get_sign_bytes)` mapping: absent column stays
absent; a present but undecodable value panics. -/
def map_sign_bytes (d : Option (Option EthSignData)) : Res String (Option String) :=
  match d with
  | none => .ok none
  | some v =>
    match get_sign_bytes v with
    | .ok s => .ok (some s)
    | .err e => .err e
    | .panicked m => .panicked m

/-- `tx_data_from_zksync_tx` (transaction.rs lines 141-173): forced-exit and
withdraw are enriched with `eth_tx_for_withdrawal`; other kinds pass through. -/
def tx_data_from_zksync_tx (c : Collaborators) (tx : ZkSyncTx) :
    Res String TransactionData :=
  match tx with
  | .changePubKey d => .ok (.l2 (.changePubKey d))
  | .close d => .ok (.l2 (.close d))
  | .forcedExit d =>
    match c.eth_tx_for_withdrawal (ZkSyncTx.hash (.forcedExit d)) with
    | .error e => .err e
    | .ok complete_withdrawals_tx_hash =>
      .ok (.l2 (.forcedExit d complete_withdrawals_tx_hash))
  | .transfer d => .ok (.l2 (.transfer d))
  | .withdraw d =>
    match c.eth_tx_for_withdrawal (ZkSyncTx.hash (.withdraw d)) with
    | .error e => .err e
    | .ok complete_withdrawals_tx_hash =>
      .ok (.l2 (.withdraw d complete_withdrawals_tx_hash))

/-- `l2_tx_from_op` (transaction.rs lines 104-129).  The `.unwrap()` on the
stored tx decode surfaces as `Res.panicked`. -/
def l2_tx_from_op (c : Collaborators) (op : StoredExecutedTransaction)
    (is_block_finalized : Bool) : Res String Transaction :=
  let block_number := some (u32_of_i64 op.block_number)
  let status :=
    if op.success then
      if is_block_finalized then TxInBlockStatus.finalized
      else TxInBlockStatus.committed
    else TxInBlockStatus.rejected
  let tx_hash := op.tx_hash
  match op.tx with
  | none => .panicked "failed to decode stored tx"
  | some txv =>
    match tx_data_from_zksync_tx c txv with
    | .err e => .err e
    | .panicked m => .panicked m
    | .ok tx_data =>
      .ok { tx_hash := tx_hash, block_number := block_number, op := tx_data,
            status := status, fail_reason := op.fail_reason,
            created_at := some op.created_at }

/-- `ApiTransactionData::get_l1_receipt` (transaction.rs lines 186-246):
finalized L1 store by sync hash, then by Ethereum hash; on a hit, classify
with the block-finalization query; otherwise ask the remote core service by
sync hash, then by Ethereum hash, synthesizing a Queued receipt on a hit.
Every failed collaborator call returns immediately as an error. -/
def get_l1_receipt (c : Collaborators) (tx_hash : TxHash) :
    Res ApiError (Option L1Receipt) :=
  let op0 : Res ApiError (Option StoredExecutedPriorityOperation) :=
    match c.get_executed_priority_operation_by_tx_hash tx_hash with
    | .error e => .err (.storage e)
    | .ok (some op) => .ok (some op)
    | .ok none =>
      match c.get_executed_priority_operation_by_eth_hash tx_hash with
      | .error e => .err (.storage e)
      | .ok r => .ok r
  match op0 with
  | .err e => .err e
  | .panicked m => .panicked m
  | .ok (some op) =>
    match c.is_block_finalized (u32_of_i64 op.block_number) with
    | .error e => .err (.storage e)
    | .ok is_block_finalized => .ok (some (l1_receipt_from_op op is_block_finalized))
  | .ok none =>
    match c.get_unconfirmed_op (.bySyncHash tx_hash) with
    | .error e => .err (.coreApi e)
    | .ok (some (_, priority_op)) =>
      .ok (some { status := TxInBlockStatus.queued,
                  eth_block := priority_op.eth_block,
                  rollup_block := none, id := priority_op.serial_id })
    | .ok none =>
      match c.get_unconfirmed_op (.byEthHash tx_hash) with
      | .error e => .err (.coreApi e)
      | .ok (some (_, priority_op)) =>
        .ok (some { status := TxInBlockStatus.queued,
                    eth_block := priority_op.eth_block,
                    rollup_block := none, id := priority_op.serial_id })
      | .ok none => .ok none

/-- `ApiTransactionData::get_l2_receipt` (transaction.rs lines 248-275):
finalized L2 receipt first, else a synthesized Queued receipt when the
mempool contains the hash, else not found. -/
def get_l2_receipt (c : Collaborators) (tx_hash : TxHash) :
    Res String (Option L2Receipt) :=
  match c.tx_receipt tx_hash with
  | .error e => .err e
  | .ok (some receipt) => .ok (some (l2_receipt_from_response receipt))
  | .ok none =>
    match c.contains_tx tx_hash with
    | .error e => .err e
    | .ok true =>
      .ok (some { tx_hash := tx_hash, rollup_block := none,
                  status := TxInBlockStatus.queued, fail_reason := none })
    | .ok false => .ok none

/-- `ApiTransactionData::tx_status` (transaction.rs lines 277-295): acquire
storage, try the L1 receipt path, then the L2 receipt path. -/
def tx_status (c : Collaborators) (tx_hash : TxHash) :
    Res ApiError (Option Receipt) :=
  match c.access_storage with
  | .error e => .err (.storage e)
  | .ok _ =>
    match get_l1_receipt c tx_hash with
    | .err e => .err e
    | .panicked m => .panicked m
    | .ok (some receipt) => .ok (some (.l1 receipt))
    | .ok none =>
      match get_l2_receipt c tx_hash with
      | .err e => .err (.storage e)
      | .panicked m => .panicked m
      | .ok (some receipt) => .ok (some (.l2 receipt))
      | .ok none => .ok none

/-- `ApiTransactionData::get_l1_tx_data` (transaction.rs lines 297-369):
same source order as `get_l1_receipt`, materializing the full record; the
remote branch synthesizes a Queued record with no creation timestamp. -/
def get_l1_tx_data (c : Collaborators) (tx_hash : TxHash) :
    Res ApiError (Option TxData) :=
  let op0 : Res ApiError (Option StoredExecutedPriorityOperation) :=
    match c.get_executed_priority_operation_by_tx_hash tx_hash with
    | .error e => .err (.storage e)
    | .ok (some op) => .ok (some op)
    | .ok none =>
      match c.get_executed_priority_operation_by_eth_hash tx_hash with
      | .error e => .err (.storage e)
      | .ok r => .ok r
  match op0 with
  | .err e => .err e
  | .panicked m => .panicked m
  | .ok (some op) =>
    match c.is_block_finalized (u32_of_i64 op.block_number) with
    | .error e => .err (.storage e)
    | .ok is_block_finalized =>
      match l1_tx_data_from_op op is_block_finalized with
      | .err e => .err e
      | .panicked m => .panicked m
      | .ok d => .ok (some d)
  | .ok none =>
    let pending : PriorityOp → Res ApiError (Option TxData) := fun op =>
      .ok (some { tx := { tx_hash := tx_hash, block_number := none,
                          op := TransactionData.l1
                            (L1Transaction.from_pending_op op.data op.eth_hash
                              op.serial_id tx_hash),
                          status := TxInBlockStatus.queued,
                          fail_reason := none, created_at := none },
                  eth_signature := none })
    match c.get_unconfirmed_op (.bySyncHash tx_hash) with
    | .error e => .err (.coreApi e)
    | .ok (some (_, priority_op)) => pending priority_op
    | .ok none =>
      match c.get_unconfirmed_op (.byEthHash tx_hash) with
      | .error e => .err (.coreApi e)
      | .ok (some (_, priority_op)) => pending priority_op
      | .ok none => .ok none

/-- `ApiTransactionData::get_l2_tx_data` (transaction.rs lines 371-414):
executed-operation store first (signature bytes are mapped before the
finalization query, as in the source), then the mempool fetch. -/
def get_l2_tx_data (c : Collaborators) (tx_hash : TxHash) :
    Res String (Option TxData) :=
  match c.get_executed_operation tx_hash with
  | .error e => .err e
  | .ok (some op) =>
    match map_sign_bytes op.eth_sign_data with
    | .err e => .err e
    | .panicked m => .panicked m
    | .ok eth_signature =>
      match c.is_block_finalized (u32_of_i64 op.block_number) with
      | .error e => .err e
      | .ok is_block_finalized =>
        match l2_tx_from_op c op is_block_finalized with
        | .err e => .err e
        | .panicked m => .panicked m
        | .ok tx => .ok (some { tx := tx, eth_signature := eth_signature })
  | .ok none =>
    match c.get_mempool_tx tx_hash with
    | .error e => .err e
    | .ok (some op) =>
      match op.tx with
      | none => .panicked "failed to decode mempool tx"
      | some txv =>
        match tx_data_from_zksync_tx c txv with
        | .err e => .err e
        | .panicked m => .panicked m
        | .ok tx_data =>
          let tx : Transaction :=
            { tx_hash := tx_hash, block_number := none, op := tx_data,
              status := TxInBlockStatus.queued, fail_reason := none,
              created_at := some op.created_at }
          match map_sign_bytes op.eth_sign_data with
          | .err e => .err e
          | .panicked m => .panicked m
          | .ok eth_signature => .ok (some { tx := tx, eth_signature := eth_signature })
    | .ok none => .ok none

/-- `ApiTransactionData::tx_data` (transaction.rs lines 416-434): acquire
storage, try the L1 data path, then the L2 data path. -/
def tx_data (c : Collaborators) (tx_hash : TxHash) :
    Res ApiError (Option TxData) :=
  match c.access_storage with
  | .error e => .err (.storage e)
  | .ok _ =>
    match get_l1_tx_data c tx_hash with
    | .err e => .err e
    | .panicked m => .panicked m
    | .ok (some d) => .ok (some d)
    | .ok none =>
      match get_l2_tx_data c tx_hash with
      | .err e => .err (.storage e)
      | .panicked m => .panicked m
      | .ok (some d) => .ok (some d)
      | .ok none => .ok none

/-- A collaborator state in which every source reports "not found" and every
query succeeds; concrete witnesses are built from it by field updates. -/
def cNone : Collaborators :=
  { access_storage := .ok ()
    get_executed_priority_operation_by_tx_hash := fun _ => .ok none
    get_executed_priority_operation_by_eth_hash := fun _ => .ok none
    is_block_finalized := fun _ => .ok false
    get_unconfirmed_op := fun _ => .ok none
    tx_receipt := fun _ => .ok none
    contains_tx := fun _ => .ok false
    get_mempool_tx := fun _ => .ok none
    get_executed_operation := fun _ => .ok none
    eth_tx_for_withdrawal := fun _ => .ok none }

/-- Claim C9: resolving the same identifier twice, with no intervening change
in the state of any collaborator (the same `Collaborators` value), yields
identical output from both the receipt endpoint and the full-data endpoint;
both are pure functions of the collaborator state and the identifier. -/
theorem c9_resolution_idempotent (c : Collaborators) (txh : TxHash) :
    tx_status c txh = tx_status c txh ∧ tx_data c txh = tx_data c txh :=
  ⟨rfl, rfl⟩

/-- Claim C2: for every L2 record found in the finalized L2 store — on the
receipt path (`l2_receipt_from_response`, where block finalization is the
stored `verified` flag) and on the data path (`l2_tx_from_op`) — the
classified status is Rejected whenever the record carries `success = false`,
regardless of block finalization, and otherwise Finalized when the containing
block is finalized and Committed when it is not. -/
theorem c2_l2_status_classification (r : TxReceiptResponse) (c : Collaborators)
    (op : StoredExecutedTransaction) (fin : Bool) (t : Transaction)
    (hop : l2_tx_from_op c op fin = .ok t) :
    (r.success = false → (l2_receipt_from_response r).status = .rejected) ∧
    (r.success = true → (l2_receipt_from_response r).status =
      (if r.verified then .finalized else .committed)) ∧
    (op.success = false → t.status = .rejected) ∧
    (op.success = true → t.status = (if fin then .finalized else .committed)) := by
  refine ⟨fun hs => ?_, fun hs => ?_, fun hs => ?_, fun hs => ?_⟩ <;>
    first
      | simp [l2_receipt_from_response, hs]
      | · simp only [l2_tx_from_op, hs] at hop
          split at hop
          · exact absurd hop (by simp)
          · split at hop
            · exact absurd hop (by simp)
            · exact absurd hop (by simp)
            · cases hop with
              | refl => simp

/-- Witness for C2 at a concrete rejected record and a concrete successful
data-path record in a finalized block. -/
theorem c2_l2_status_classification_witness :
    (l2_receipt_from_response
      { tx_hash := 3, block_number := 7, success := false, verified := true,
        fail_reason := some "nope" }).status = .rejected ∧
    ((l2_tx_from_op cNone
        { block_number := 7, tx_hash := 3, tx := some (.transfer 1),
          success := true, fail_reason := none, created_at := 9,
          eth_sign_data := none } true).isErr = false) := by
  refine ⟨?_, rfl⟩
  have h := c2_l2_status_classification
    { tx_hash := 3, block_number := 7, success := false, verified := true,
      fail_reason := some "nope" }
    cNone
    { block_number := 7, tx_hash := 3, tx := some (.transfer 1),
      success := true, fail_reason := none, created_at := 9,
      eth_sign_data := none }
    true
    { tx_hash := 3, block_number := some 7,
      op := .l2 (.transfer 1), status := .finalized,
      fail_reason := none, created_at := some 9 }
    (by rfl)
  exact h.1 rfl

/-- A collaborator state whose finalized L1 store holds one record, found by
sync hash. -/
def cWithL1 (op : StoredExecutedPriorityOperation) : Collaborators :=
  { cNone with
    get_executed_priority_operation_by_tx_hash := fun _ => Except.ok (some op) }

/-- A concrete finalized-store deposit record used by witnesses. -/
def opDepositA : StoredExecutedPriorityOperation :=
  { block_number := 5, operation := some (.deposit 2), eth_hash := 11,
    eth_block := 4, priority_op_serialid := 8, created_at := 1, tx_hash := 42 }

/-- The full-data record materialized from `opDepositA` at a given
finalization flag. -/
def txDataDepositA (fin : Bool) : TxData :=
  { tx := { tx_hash := 42, block_number := some 5,
            op := .l1 (.deposit 2 11 8 42),
            status := if fin then .finalized else .committed,
            fail_reason := none, created_at := some 1 },
    eth_signature := none }

/-- Claim C10: every L1 operation materialized from the finalized L1 store
has status Committed or Finalized (never Queued, never Rejected), a present
rollup block number, no failure reason and no origin signature; moreover no
path of the L1 receipt or L1 data lookup (the finalized store path or the
remote pending path) can produce a Rejected status or a failure reason. -/
theorem c10_l1_results_never_rejected (op : StoredExecutedPriorityOperation)
    (fin : Bool) (d : TxData) (c : Collaborators) (txh : TxHash)
    (r : L1Receipt) (td : TxData)
    (hd : l1_tx_data_from_op op fin = .ok d)
    (hr : get_l1_receipt c txh = .ok (some r))
    (ht : get_l1_tx_data c txh = .ok (some td)) :
    ((l1_receipt_from_op op fin).status = .committed ∨
      (l1_receipt_from_op op fin).status = .finalized) ∧
    (l1_receipt_from_op op fin).rollup_block ≠ none ∧
    (d.tx.status = .committed ∨ d.tx.status = .finalized) ∧
    d.tx.block_number ≠ none ∧ d.tx.fail_reason = none ∧
    d.eth_signature = none ∧
    r.status ≠ .rejected ∧
    td.tx.status ≠ .rejected ∧ td.tx.fail_reason = none ∧
    td.eth_signature = none := by
  have hrec : (l1_receipt_from_op op fin).status = .committed ∨
      (l1_receipt_from_op op fin).status = .finalized := by
    cases fin <;> simp [l1_receipt_from_op]
  have hrb : (l1_receipt_from_op op fin).rollup_block ≠ none := by
    simp [l1_receipt_from_op]
  have hdprops : (d.tx.status = .committed ∨ d.tx.status = .finalized) ∧
      d.tx.block_number ≠ none ∧ d.tx.fail_reason = none ∧
      d.eth_signature = none := by
    simp only [l1_tx_data_from_op] at hd
    split at hd
    · exact absurd hd (by simp)
    · split at hd
      · exact absurd hd (by simp)
      · cases hd with
        | refl => cases fin <;> simp
  have hrstat : r.status ≠ .rejected := by
    simp only [get_l1_receipt] at hr
    split at hr
    · exact absurd hr (by simp)
    · exact absurd hr (by simp)
    · split at hr
      · exact absurd hr (by simp)
      · cases hr with
        | refl => cases ‹Bool› <;> simp [l1_receipt_from_op]
    · split at hr
      · exact absurd hr (by simp)
      · cases hr with
        | refl => simp
      · split at hr
        · exact absurd hr (by simp)
        · cases hr with
          | refl => simp
        · exact absurd hr (by simp)
  have htprops : td.tx.status ≠ .rejected ∧ td.tx.fail_reason = none ∧
      td.eth_signature = none := by
    simp only [get_l1_tx_data] at ht
    split at ht
    · exact absurd ht (by simp)
    · exact absurd ht (by simp)
    · split at ht
      · exact absurd ht (by simp)
      · split at ht
        · exact absurd ht (by simp)
        · exact absurd ht (by simp)
        · rename_i d2 hd2
          cases ht with
          | refl =>
            simp only [l1_tx_data_from_op] at hd2
            split at hd2
            · exact absurd hd2 (by simp)
            · split at hd2
              · exact absurd hd2 (by simp)
              · cases hd2 with
                | refl => cases ‹Bool› <;> simp
    · split at ht
      · exact absurd ht (by simp)
      · cases ht with
        | refl => simp
      · split at ht
        · exact absurd ht (by simp)
        · cases ht with
          | refl => simp
        · exact absurd ht (by simp)
  exact ⟨hrec, hrb, hdprops.1, hdprops.2.1, hdprops.2.2.1, hdprops.2.2.2,
    hrstat, htprops.1, htprops.2.1, htprops.2.2⟩

/-- Witness for C10: a deposit indexed in the finalized L1 store, evaluated
both through the materializers and through the lookup with a concrete
collaborator state holding that record. -/
theorem c10_l1_results_never_rejected_witness :
    ((l1_receipt_from_op opDepositA true).status = .committed ∨
      (l1_receipt_from_op opDepositA true).status = .finalized) := by
  have hd : l1_tx_data_from_op opDepositA true = .ok (txDataDepositA true) := by
    rfl
  have hcw : get_l1_receipt (cWithL1 opDepositA) 42 =
      .ok (some { status := .committed, eth_block := 4, rollup_block := some 5,
                  id := 8 }) := by rfl
  have hct : get_l1_tx_data (cWithL1 opDepositA) 42 =
      .ok (some (txDataDepositA false)) := by rfl
  exact (c10_l1_results_never_rejected opDepositA true _ _ 42 _ _ hd hcw hct).1

/-- The receipt literal synthesized by `get_l2_receipt` for a pool-only L2
transaction (transaction.rs lines 266-271). -/
def queuedL2Receipt (txh : TxHash) : L2Receipt :=
  { tx_hash := txh, rollup_block := none, status := .queued,
    fail_reason := none }

/-- The receipt literal synthesized by `get_l1_receipt` for a remote
unconfirmed priority operation (transaction.rs lines 239-244). -/
def queuedL1Receipt (p : PriorityOp) : L1Receipt :=
  { status := .queued, eth_block := p.eth_block, rollup_block := none,
    id := p.serial_id }

/-- The full-data record synthesized by `get_l1_tx_data` for a remote
unconfirmed priority operation (transaction.rs lines 350-367). -/
def pendingL1TxData (p : PriorityOp) (txh : TxHash) : TxData :=
  { tx := { tx_hash := txh, block_number := none,
            op := .l1 (L1Transaction.from_pending_op p.data p.eth_hash
              p.serial_id txh),
            status := .queued, fail_reason := none, created_at := none },
    eth_signature := none }

/-- The full-data record built by the mempool branch of `get_l2_tx_data`
(transaction.rs lines 398-410). -/
def queuedL2TxData (txh : TxHash) (td : TransactionData) (createdAt : Nat)
    (sig : Option String) : TxData :=
  { tx := { tx_hash := txh, block_number := none, op := td, status := .queued,
            fail_reason := none, created_at := some createdAt },
    eth_signature := sig }

/-- Claim C8: when every source reports "not found" (and every query
succeeds), both the receipt endpoint and the full-data endpoint return the
dedicated not-found outcome — a successful empty result, not an error. -/
theorem c8_nothing_found_yields_not_found (c : Collaborators) (txh : TxHash)
    (ha : c.access_storage = .ok ())
    (h1 : c.get_executed_priority_operation_by_tx_hash txh = .ok none)
    (h2 : c.get_executed_priority_operation_by_eth_hash txh = .ok none)
    (h3 : c.get_unconfirmed_op (.bySyncHash txh) = .ok none)
    (h4 : c.get_unconfirmed_op (.byEthHash txh) = .ok none)
    (h5 : c.tx_receipt txh = .ok none)
    (h6 : c.contains_tx txh = .ok false)
    (h7 : c.get_executed_operation txh = .ok none)
    (h8 : c.get_mempool_tx txh = .ok none) :
    tx_status c txh = .ok none ∧ tx_data c txh = .ok none ∧
    (tx_status c txh).isErr = false ∧ (tx_data c txh).isErr = false := by
  have hs : tx_status c txh = .ok none := by
    simp [tx_status, get_l1_receipt, get_l2_receipt, ha, h1, h2, h3, h4, h5, h6]
  have hd : tx_data c txh = .ok none := by
    simp [tx_data, get_l1_tx_data, get_l2_tx_data, ha, h1, h2, h3, h4, h7, h8]
  exact ⟨hs, hd, by rw [hs]; rfl, by rw [hd]; rfl⟩

/-- Witness for C8 at the all-empty collaborator state. -/
theorem c8_nothing_found_yields_not_found_witness :
    tx_status cNone 0 = .ok none ∧ tx_data cNone 0 = .ok none :=
  have h := c8_nothing_found_yields_not_found cNone 0 rfl rfl rfl rfl rfl rfl
    rfl rfl rfl
  ⟨h.1, h.2.1⟩

/-- Claim C5: for an L2 transaction present only in the mempool — both
finalized stores and the remote lookup miss, the mempool contains the hash
and yields the pending row — the receipt carries exactly status Queued, an
absent rollup block number and no failure reason, and the full-data record
likewise carries status Queued, an absent block number and no failure
reason. -/
theorem c5_mempool_only_is_queued (c : Collaborators) (txh : TxHash)
    (mtx : MempoolTx) (txv : ZkSyncTx) (td : TransactionData)
    (sig : Option String)
    (ha : c.access_storage = .ok ())
    (h1 : c.get_executed_priority_operation_by_tx_hash txh = .ok none)
    (h2 : c.get_executed_priority_operation_by_eth_hash txh = .ok none)
    (h3 : c.get_unconfirmed_op (.bySyncHash txh) = .ok none)
    (h4 : c.get_unconfirmed_op (.byEthHash txh) = .ok none)
    (h5 : c.tx_receipt txh = .ok none)
    (h6 : c.contains_tx txh = .ok true)
    (h7 : c.get_executed_operation txh = .ok none)
    (h8 : c.get_mempool_tx txh = .ok (some mtx))
    (hmt : mtx.tx = some txv)
    (htd : tx_data_from_zksync_tx c txv = .ok td)
    (hsb : map_sign_bytes mtx.eth_sign_data = .ok sig) :
    tx_status c txh = .ok (some (.l2 (queuedL2Receipt txh))) ∧
    tx_data c txh =
      .ok (some (queuedL2TxData txh td mtx.created_at sig)) := by
  constructor
  · simp [tx_status, get_l1_receipt, get_l2_receipt, ha, h1, h2, h3, h4, h5,
      h6, queuedL2Receipt]
  · simp [tx_data, get_l1_tx_data, get_l2_tx_data, ha, h1, h2, h3, h4, h7,
      h8, hmt, htd, hsb, queuedL2TxData]

/-- A concrete mempool row used by witnesses: a decodable transfer with a
present, decodable signature. -/
def mempoolTxA : MempoolTx :=
  { tx := some (.transfer 6), created_at := 13,
    eth_sign_data := some (some { signature := "sig" }) }

/-- A collaborator state where hash 21 is known only to the mempool. -/
def cMempoolOnly : Collaborators :=
  { cNone with
    contains_tx := fun _ => Except.ok true
    get_mempool_tx := fun _ => Except.ok (some mempoolTxA) }

/-- Witness for C5 at the concrete mempool-only state. -/
theorem c5_mempool_only_is_queued_witness :
    tx_status cMempoolOnly 21 = .ok (some (.l2 (queuedL2Receipt 21))) ∧
    tx_data cMempoolOnly 21 =
      .ok (some (queuedL2TxData 21 (.l2 (.transfer 6)) 13 (some "sig"))) :=
  c5_mempool_only_is_queued cMempoolOnly 21 mempoolTxA (.transfer 6)
    (.l2 (.transfer 6)) (some "sig") rfl rfl rfl rfl rfl rfl rfl rfl rfl rfl
    rfl rfl

/-- Claim C6: for an L1 operation found only via the remote core service
(both finalized L1 lookups miss), whichever hash space matches, the receipt
has status hard-coded Queued, an absent rollup block number and the
sequential operation id of the remote record; the full-data record
additionally has an absent creation timestamp. -/
theorem c6_remote_only_l1_is_queued (c : Collaborators) (txh : TxHash)
    (m : Nat) (p : PriorityOp)
    (ha : c.access_storage = .ok ())
    (h1 : c.get_executed_priority_operation_by_tx_hash txh = .ok none)
    (h2 : c.get_executed_priority_operation_by_eth_hash txh = .ok none) :
    (c.get_unconfirmed_op (.bySyncHash txh) = .ok (some (m, p)) →
      tx_status c txh = .ok (some (.l1 (queuedL1Receipt p))) ∧
      tx_data c txh = .ok (some (pendingL1TxData p txh))) ∧
    (c.get_unconfirmed_op (.bySyncHash txh) = .ok none →
      c.get_unconfirmed_op (.byEthHash txh) = .ok (some (m, p)) →
      tx_status c txh = .ok (some (.l1 (queuedL1Receipt p))) ∧
      tx_data c txh = .ok (some (pendingL1TxData p txh))) := by
  constructor
  · intro h3
    constructor
    · simp [tx_status, get_l1_receipt, ha, h1, h2, h3, queuedL1Receipt]
    · simp [tx_data, get_l1_tx_data, ha, h1, h2, h3, pendingL1TxData,
        L1Transaction.from_pending_op]
  · intro h3 h4
    constructor
    · simp [tx_status, get_l1_receipt, ha, h1, h2, h3, h4, queuedL1Receipt]
    · simp [tx_data, get_l1_tx_data, ha, h1, h2, h3, h4, pendingL1TxData,
        L1Transaction.from_pending_op]

/-- A concrete remote unconfirmed priority operation used by witnesses. -/
def pOpA : PriorityOp := { serial_id := 3, data := 1, eth_hash := 5, eth_block := 9 }

/-- A collaborator state where the remote core service knows `pOpA` by sync
hash and every local store misses. -/
def cRemoteOnly : Collaborators :=
  { cNone with
    get_unconfirmed_op := fun q =>
      match q with
      | .bySyncHash _ => Except.ok (some (0, pOpA))
      | .byEthHash _ => Except.ok none }

/-- Witness for C6 at the concrete remote-only state. -/
theorem c6_remote_only_l1_is_queued_witness :
    tx_status cRemoteOnly 30 = .ok (some (.l1 (queuedL1Receipt pOpA))) ∧
    tx_data cRemoteOnly 30 = .ok (some (pendingL1TxData pOpA 30)) :=
  (c6_remote_only_l1_is_queued cRemoteOnly 30 0 pOpA rfl rfl rfl).1 rfl

/-- An L2 receipt row for hash 7: included, successful, verified. -/
def rGood : TxReceiptResponse :=
  { tx_hash := 7, block_number := 2, success := true, verified := true,
    fail_reason := none }

/-- A collaborator state in which the finalized L2 store has a receipt for
the hash while the remote core service also reports an unconfirmed priority
operation for it; the finalized L1 store misses. -/
def cL2AndRemote : Collaborators :=
  { cNone with
    get_unconfirmed_op := fun q =>
      match q with
      | .bySyncHash _ => Except.ok (some (0, pOpA))
      | .byEthHash _ => Except.ok none
    tx_receipt := fun _ => Except.ok (some rGood) }

/-- Claim C1 counterexample: with hash 7 present in the finalized L2 store
and simultaneously known to the remote core service, both endpoints answer
from the remote lookup, not from the finalized L2 store — so RemoteOpLookup
is reached (and wins) even though a finalized store has the record, refuting
the claimed precedence FinalizedL2Store-before-RemoteOpLookup and the claim
that RemoteOpLookup is reached only when both finalized stores report
nothing. -/
theorem c1_counterexample :
    tx_status cL2AndRemote 7 = .ok (some (.l1 (queuedL1Receipt pOpA))) ∧
    tx_data cL2AndRemote 7 = .ok (some (pendingL1TxData pOpA 7)) ∧
    cL2AndRemote.tx_receipt 7 = Except.ok (some rGood) ∧
    Receipt.l1 (queuedL1Receipt pOpA) ≠ .l2 (l2_receipt_from_response rGood) := by
  exact ⟨rfl, rfl, rfl, by decide⟩

/-- Claim C1 amended: both lookups query the sources in the fixed order
FinalizedL1Store by sync-hash, FinalizedL1Store by chain-hash, RemoteOpLookup
by sync-hash, RemoteOpLookup by chain-hash, FinalizedL2Store, MempoolStore —
short-circuiting on the first hit; RemoteOpLookup is reached as soon as the
finalized L1 store misses on both hash spaces, before the finalized L2 store
or the mempool is consulted. -/
theorem c1_amended_source_precedence (c : Collaborators) (txh : TxHash)
    (ha : c.access_storage = .ok ()) :
    (∀ op fin d,
      c.get_executed_priority_operation_by_tx_hash txh = .ok (some op) →
      c.is_block_finalized (u32_of_i64 op.block_number) = .ok fin →
      l1_tx_data_from_op op fin = .ok d →
      tx_status c txh = .ok (some (.l1 (l1_receipt_from_op op fin))) ∧
      tx_data c txh = .ok (some d)) ∧
    (∀ op fin d,
      c.get_executed_priority_operation_by_tx_hash txh = .ok none →
      c.get_executed_priority_operation_by_eth_hash txh = .ok (some op) →
      c.is_block_finalized (u32_of_i64 op.block_number) = .ok fin →
      l1_tx_data_from_op op fin = .ok d →
      tx_status c txh = .ok (some (.l1 (l1_receipt_from_op op fin))) ∧
      tx_data c txh = .ok (some d)) ∧
    (∀ m p,
      c.get_executed_priority_operation_by_tx_hash txh = .ok none →
      c.get_executed_priority_operation_by_eth_hash txh = .ok none →
      c.get_unconfirmed_op (.bySyncHash txh) = .ok (some (m, p)) →
      tx_status c txh = .ok (some (.l1 (queuedL1Receipt p))) ∧
      tx_data c txh = .ok (some (pendingL1TxData p txh))) ∧
    (∀ m p,
      c.get_executed_priority_operation_by_tx_hash txh = .ok none →
      c.get_executed_priority_operation_by_eth_hash txh = .ok none →
      c.get_unconfirmed_op (.bySyncHash txh) = .ok none →
      c.get_unconfirmed_op (.byEthHash txh) = .ok (some (m, p)) →
      tx_status c txh = .ok (some (.l1 (queuedL1Receipt p))) ∧
      tx_data c txh = .ok (some (pendingL1TxData p txh))) ∧
    (∀ r,
      c.get_executed_priority_operation_by_tx_hash txh = .ok none →
      c.get_executed_priority_operation_by_eth_hash txh = .ok none →
      c.get_unconfirmed_op (.bySyncHash txh) = .ok none →
      c.get_unconfirmed_op (.byEthHash txh) = .ok none →
      c.tx_receipt txh = .ok (some r) →
      tx_status c txh = .ok (some (.l2 (l2_receipt_from_response r)))) ∧
    (c.get_executed_priority_operation_by_tx_hash txh = .ok none →
      c.get_executed_priority_operation_by_eth_hash txh = .ok none →
      c.get_unconfirmed_op (.bySyncHash txh) = .ok none →
      c.get_unconfirmed_op (.byEthHash txh) = .ok none →
      c.tx_receipt txh = .ok none →
      c.contains_tx txh = .ok true →
      tx_status c txh = .ok (some (.l2 (queuedL2Receipt txh)))) ∧
    (∀ op2 sig fin2 t,
      c.get_executed_priority_operation_by_tx_hash txh = .ok none →
      c.get_executed_priority_operation_by_eth_hash txh = .ok none →
      c.get_unconfirmed_op (.bySyncHash txh) = .ok none →
      c.get_unconfirmed_op (.byEthHash txh) = .ok none →
      c.get_executed_operation txh = .ok (some op2) →
      map_sign_bytes op2.eth_sign_data = .ok sig →
      c.is_block_finalized (u32_of_i64 op2.block_number) = .ok fin2 →
      l2_tx_from_op c op2 fin2 = .ok t →
      tx_data c txh = .ok (some { tx := t, eth_signature := sig })) ∧
    (∀ mtx txv td sig,
      c.get_executed_priority_operation_by_tx_hash txh = .ok none →
      c.get_executed_priority_operation_by_eth_hash txh = .ok none →
      c.get_unconfirmed_op (.bySyncHash txh) = .ok none →
      c.get_unconfirmed_op (.byEthHash txh) = .ok none →
      c.get_executed_operation txh = .ok none →
      c.get_mempool_tx txh = .ok (some mtx) →
      mtx.tx = some txv →
      tx_data_from_zksync_tx c txv = .ok td →
      map_sign_bytes mtx.eth_sign_data = .ok sig →
      tx_data c txh = .ok (some (queuedL2TxData txh td mtx.created_at sig))) := by
  refine ⟨?_, ?_, ?_, ?_, ?_, ?_, ?_, ?_⟩
  · intro op fin d h1 hf hd
    constructor
    · simp [tx_status, get_l1_receipt, ha, h1, hf]
    · simp [tx_data, get_l1_tx_data, ha, h1, hf, hd]
  · intro op fin d h1 h2 hf hd
    constructor
    · simp [tx_status, get_l1_receipt, ha, h1, h2, hf]
    · simp [tx_data, get_l1_tx_data, ha, h1, h2, hf, hd]
  · intro m p h1 h2 h3
    constructor
    · simp [tx_status, get_l1_receipt, ha, h1, h2, h3, queuedL1Receipt]
    · simp [tx_data, get_l1_tx_data, ha, h1, h2, h3, pendingL1TxData,
        L1Transaction.from_pending_op]
  · intro m p h1 h2 h3 h4
    constructor
    · simp [tx_status, get_l1_receipt, ha, h1, h2, h3, h4, queuedL1Receipt]
    · simp [tx_data, get_l1_tx_data, ha, h1, h2, h3, h4, pendingL1TxData,
        L1Transaction.from_pending_op]
  · intro r h1 h2 h3 h4 h5
    simp [tx_status, get_l1_receipt, get_l2_receipt, ha, h1, h2, h3, h4, h5]
  · intro h1 h2 h3 h4 h5 h6
    simp [tx_status, get_l1_receipt, get_l2_receipt, ha, h1, h2, h3, h4, h5,
      h6, queuedL2Receipt]
  · intro op2 sig fin2 t h1 h2 h3 h4 h5 h6 h7 h8
    simp [tx_data, get_l1_tx_data, get_l2_tx_data, ha, h1, h2, h3, h4, h5,
      h6, h7, h8]
  · intro mtx txv td sig h1 h2 h3 h4 h5 h6 h7 h8 h9
    simp [tx_data, get_l1_tx_data, get_l2_tx_data, ha, h1, h2, h3, h4, h5,
      h6, h7, h8, h9, queuedL2TxData]

/-- Witness for the amended C1: the first stage (finalized L1 store by sync
hash) answers at a concrete state holding `opDepositA`. -/
theorem c1_amended_source_precedence_witness :
    tx_status (cWithL1 opDepositA) 42 =
      .ok (some (.l1 (l1_receipt_from_op opDepositA false))) :=
  ((c1_amended_source_precedence (cWithL1 opDepositA) 42 rfl).1 opDepositA
    false (txDataDepositA false) rfl rfl rfl).1

/-- Claim C4: a failed source query is propagated immediately as an error —
never masked by falling through to the next precedence step; only a
not-found result triggers fallthrough.  Each conjunct states that when every
earlier source in the code order reports not-found and the next collaborator
call fails, that failure is the result of the endpoint. -/
theorem c4_source_error_propagates (c : Collaborators) (txh : TxHash)
    (e : String) :
    (c.access_storage = .error e →
      tx_status c txh = .err (.storage e) ∧ tx_data c txh = .err (.storage e)) ∧
    (c.access_storage = .ok () →
      ((c.get_executed_priority_operation_by_tx_hash txh = .error e →
        tx_status c txh = .err (.storage e) ∧
        tx_data c txh = .err (.storage e)) ∧
      (c.get_executed_priority_operation_by_tx_hash txh = .ok none →
        c.get_executed_priority_operation_by_eth_hash txh = .error e →
        tx_status c txh = .err (.storage e) ∧
        tx_data c txh = .err (.storage e)) ∧
      (c.get_executed_priority_operation_by_tx_hash txh = .ok none →
        c.get_executed_priority_operation_by_eth_hash txh = .ok none →
        c.get_unconfirmed_op (.bySyncHash txh) = .error e →
        tx_status c txh = .err (.coreApi e) ∧
        tx_data c txh = .err (.coreApi e)) ∧
      (c.get_executed_priority_operation_by_tx_hash txh = .ok none →
        c.get_executed_priority_operation_by_eth_hash txh = .ok none →
        c.get_unconfirmed_op (.bySyncHash txh) = .ok none →
        c.get_unconfirmed_op (.byEthHash txh) = .error e →
        tx_status c txh = .err (.coreApi e) ∧
        tx_data c txh = .err (.coreApi e)) ∧
      (c.get_executed_priority_operation_by_tx_hash txh = .ok none →
        c.get_executed_priority_operation_by_eth_hash txh = .ok none →
        c.get_unconfirmed_op (.bySyncHash txh) = .ok none →
        c.get_unconfirmed_op (.byEthHash txh) = .ok none →
        ((c.tx_receipt txh = .error e →
          tx_status c txh = .err (.storage e)) ∧
        (c.tx_receipt txh = .ok none → c.contains_tx txh = .error e →
          tx_status c txh = .err (.storage e)) ∧
        (c.get_executed_operation txh = .error e →
          tx_data c txh = .err (.storage e)) ∧
        (c.get_executed_operation txh = .ok none →
          c.get_mempool_tx txh = .error e →
          tx_data c txh = .err (.storage e)))))) := by
  refine ⟨?_, ?_⟩
  · intro he
    exact ⟨by simp [tx_status, he], by simp [tx_data, he]⟩
  · intro ha
    refine ⟨?_, ?_, ?_, ?_, ?_⟩
    · intro h1
      exact ⟨by simp [tx_status, get_l1_receipt, ha, h1],
        by simp [tx_data, get_l1_tx_data, ha, h1]⟩
    · intro h1 h2
      exact ⟨by simp [tx_status, get_l1_receipt, ha, h1, h2],
        by simp [tx_data, get_l1_tx_data, ha, h1, h2]⟩
    · intro h1 h2 h3
      exact ⟨by simp [tx_status, get_l1_receipt, ha, h1, h2, h3],
        by simp [tx_data, get_l1_tx_data, ha, h1, h2, h3]⟩
    · intro h1 h2 h3 h4
      exact ⟨by simp [tx_status, get_l1_receipt, ha, h1, h2, h3, h4],
        by simp [tx_data, get_l1_tx_data, ha, h1, h2, h3, h4]⟩
    · intro h1 h2 h3 h4
      refine ⟨?_, ?_, ?_, ?_⟩
      · intro h5
        simp [tx_status, get_l1_receipt, get_l2_receipt, ha, h1, h2, h3, h4, h5]
      · intro h5 h6
        simp [tx_status, get_l1_receipt, get_l2_receipt, ha, h1, h2, h3, h4,
          h5, h6]
      · intro h5
        simp [tx_data, get_l1_tx_data, get_l2_tx_data, ha, h1, h2, h3, h4, h5]
      · intro h5 h6
        simp [tx_data, get_l1_tx_data, get_l2_tx_data, ha, h1, h2, h3, h4,
          h5, h6]

/-- A collaborator state whose finalized L1 store fails on the sync-hash
query. -/
def cStoreDown : Collaborators :=
  { cNone with
    get_executed_priority_operation_by_tx_hash := fun _ =>
      Except.error "connection reset" }

/-- Witness for C4: the very first failed query surfaces as a storage error
from both endpoints at a concrete state. -/
theorem c4_source_error_propagates_witness :
    tx_status cStoreDown 0 = .err (.storage "connection reset") ∧
    tx_data cStoreDown 0 = .err (.storage "connection reset") :=
  ((c4_source_error_propagates cStoreDown 0 "connection reset").2 rfl).1 rfl

/-- A finalized-store priority-operation row whose stored operation payload
does not decode. -/
def opNoDecode : StoredExecutedPriorityOperation :=
  { block_number := 5, operation := none, eth_hash := 11, eth_block := 4,
    priority_op_serialid := 8, created_at := 1, tx_hash := 42 }

/-- Claim C3 counterexample: at a stored record whose operation payload fails
to decode, the materializer does not return an internal-error value scoped to
the request — it panics (the `.unwrap()` on `serde_json::from_value`), an
abort whose blast radius is decided by the runtime, not by this code. -/
theorem c3_counterexample :
    l1_tx_data_from_op opNoDecode true =
      .panicked "failed to decode stored operation" ∧
    (l1_tx_data_from_op opNoDecode true).isErr = false := ⟨rfl, rfl⟩

/-- Claim C3 amended: for every stored record whose operation payload or
signature data fails to decode, the materializer panics — an outcome
distinct from the not-found result and from an error return, and never
silently swallowed (in particular the lookup neither reports not-found nor
succeeds). -/
theorem c3_decode_failure_panics (op : StoredExecutedPriorityOperation)
    (fin : Bool) (c : Collaborators) (txh : TxHash)
    (op2 : StoredExecutedTransaction)
    (hop : op.operation = none)
    (h7 : c.get_executed_operation txh = .ok (some op2))
    (hsig : op2.eth_sign_data = some none) :
    l1_tx_data_from_op op fin = .panicked "failed to decode stored operation" ∧
    (l1_tx_data_from_op op fin).isErr = false ∧
    get_sign_bytes none =
      .panicked "database provided an incorrect eth sign data field" ∧
    get_l2_tx_data c txh =
      .panicked "database provided an incorrect eth sign data field" ∧
    get_l2_tx_data c txh ≠ .ok none ∧
    (get_l2_tx_data c txh).isErr = false := by
  have hl1 : l1_tx_data_from_op op fin =
      .panicked "failed to decode stored operation" := by
    simp [l1_tx_data_from_op, hop]
  have hl2 : get_l2_tx_data c txh =
      .panicked "database provided an incorrect eth sign data field" := by
    simp [get_l2_tx_data, h7, hsig, map_sign_bytes, get_sign_bytes]
  refine ⟨hl1, by rw [hl1]; rfl, rfl, hl2, by rw [hl2]; simp, by rw [hl2]; rfl⟩

/-- An executed L2 row whose signature data is present but does not decode. -/
def stBadSig : StoredExecutedTransaction :=
  { block_number := 3, tx_hash := 8, tx := some (.transfer 2), success := true,
    fail_reason := none, created_at := 4, eth_sign_data := some none }

/-- A collaborator state whose executed-operation store returns `stBadSig`. -/
def cBadSig : Collaborators :=
  { cNone with get_executed_operation := fun _ => Except.ok (some stBadSig) }

/-- Witness for the amended C3 at the concrete undecodable records. -/
theorem c3_decode_failure_panics_witness :
    get_l2_tx_data cBadSig 8 =
      .panicked "database provided an incorrect eth sign data field" :=
  (c3_decode_failure_panics opNoDecode true cBadSig 8 stBadSig rfl rfl
    rfl).2.2.2.1

/-- An L2 receipt row carrying a failure reason although it executed
successfully (`success = true`, not yet verified). -/
def rFailCom : TxReceiptResponse :=
  { tx_hash := 1, block_number := 5, success := true, verified := false,
    fail_reason := some "boom" }

/-- A collaborator state whose finalized L2 store returns `rFailCom`. -/
def cIncoherent : Collaborators :=
  { cNone with tx_receipt := fun _ => Except.ok (some rFailCom) }

/-- Claim C7 counterexample: the receipt builder passes the stored failure
reason through unconditionally, so a stored row with `success = true` and a
non-empty failure reason yields a receipt whose failure reason is present
while its status is Committed, not Rejected — refuting the
present-iff-Rejected direction of the claim. -/
theorem c7_counterexample :
    get_l2_receipt cIncoherent 1 =
      .ok (some (l2_receipt_from_response rFailCom)) ∧
    (l2_receipt_from_response rFailCom).fail_reason = some "boom" ∧
    (l2_receipt_from_response rFailCom).status = .committed ∧
    (l2_receipt_from_response rFailCom).status ≠ .rejected := by
  exact ⟨rfl, rfl, rfl, by decide⟩

/-- Claim C7 amended: for every L2 receipt the lookup produces, the rollup
block number is present exactly when the status is at least Committed (read
as: not Queued — the Rejected terminal also lies past Queued and always
carries its block); and, provided the stored row carries a failure reason
exactly when its success flag is false, the receipt failure reason is
present exactly when the status is Rejected. -/
theorem c7_amended_receipt_fields (c : Collaborators) (txh : TxHash)
    (rec : L2Receipt)
    (hcoh : ∀ r, c.tx_receipt txh = Except.ok (some r) →
      r.fail_reason.isSome = !r.success)
    (hres : get_l2_receipt c txh = .ok (some rec)) :
    ((rec.rollup_block ≠ none) ↔ (rec.status ≠ .queued)) ∧
    ((rec.fail_reason ≠ none) ↔ rec.status = .rejected) := by
  simp only [get_l2_receipt] at hres
  split at hres
  · exact absurd hres (by simp)
  · rename_i r hr
    simp only [Res.ok.injEq, Option.some.injEq] at hres
    subst hres
    have hc := hcoh r hr
    cases hsu : r.success with
    | true =>
      rw [hsu] at hc
      have hfr : r.fail_reason = none := by
        cases hfr2 : r.fail_reason with
        | none => rfl
        | some s => rw [hfr2] at hc; simp at hc
      cases hv : r.verified <;>
        simp [l2_receipt_from_response, hsu, hv, hfr]
    | false =>
      rw [hsu] at hc
      have hfr : r.fail_reason ≠ none := by
        cases hfr2 : r.fail_reason with
        | none => rw [hfr2] at hc; simp at hc
        | some s => simp
      simp [l2_receipt_from_response, hsu, hfr]
  · split at hres
    · exact absurd hres (by simp)
    · simp only [Res.ok.injEq, Option.some.injEq] at hres
      subst hres
      simp
    · exact absurd hres (by simp)

/-- An L2 receipt row whose failure reason is coherent with its success
flag: a rejected execution with a reason. -/
def rRej : TxReceiptResponse :=
  { tx_hash := 9, block_number := 2, success := false, verified := false,
    fail_reason := some "reverted" }

/-- A collaborator state whose finalized L2 store returns `rRej`. -/
def cCoherent : Collaborators :=
  { cNone with tx_receipt := fun _ => Except.ok (some rRej) }

/-- Witness for the amended C7 at the concrete rejected record. -/
theorem c7_amended_receipt_fields_witness :
    (((l2_receipt_from_response rRej).rollup_block ≠ none) ↔
      ((l2_receipt_from_response rRej).status ≠ .queued)) ∧
    (((l2_receipt_from_response rRej).fail_reason ≠ none) ↔
      (l2_receipt_from_response rRej).status = .rejected) := by
  refine c7_amended_receipt_fields cCoherent 9 (l2_receipt_from_response rRej)
    ?_ rfl
  intro r hr
  have hr2 : (Except.ok (some rRej) : Except String (Option TxReceiptResponse)) =
      Except.ok (some r) := hr
  simp only [Except.ok.injEq, Option.some.injEq] at hr2
  subst hr2
  rfl

end ZkSyncTxApi
